import Mathlib

/-!
# A verification model of the cron-pilot task scheduler core

Shallow embedding of the core of the `cron-pilot` repository:
the run coordinator (`app/task_executor.py`), the trigger scheduler
(`app/scheduler.py`), the environment resolver
(`app/environment_manager.py`), the log sink (`app/log_manager.py`) and
the manual-run API endpoint (`app/api/tasks.py`).

External effects (the filesystem, subprocesses, the JSON decoder of the
standard library, the e-mail notifier) are modelled as explicit oracle
parameters; everything that is code of the repository is translated
directly from the source.
-/

namespace CronPilot

/-! ## Python string primitives

`pyFind` models `str.find` (index of the first occurrence, character
based), `pySlice` models `s[a:b]` for non-negative bounds, `pyContains`
models the `in` operator on strings, and `pySplitWs` models `str.split()`
with no argument (split on whitespace runs, discarding empty pieces). -/

/-- Index of the first occurrence of `pat` in `l`, if any. -/
def findSub (l pat : List Char) : Option Nat :=
  match l with
  | [] => if pat = [] then some 0 else none
  | _ :: rest =>
    if pat.isPrefixOf l then some 0
    else (findSub rest pat).map (· + 1)

/-- Python `s.find(pat)` restricted to the found case (`none` models `-1`). -/
def pyFind (s pat : String) : Option Nat :=
  findSub s.toList pat.toList

/-- Python `pat in s`. -/
def pyContains (s pat : String) : Bool :=
  (pyFind s pat).isSome

/-- Python `s[a:b]` for `0 ≤ a, b` (an empty string when `b ≤ a`). -/
def pySlice (s : String) (a b : Nat) : String :=
  String.mk ((s.toList.drop a).take (b - a))

/-- Python `s.strip()`: drop leading and trailing whitespace. -/
def pyStrip (s : String) : String :=
  String.mk ((((s.toList.dropWhile Char.isWhitespace).reverse).dropWhile Char.isWhitespace).reverse)

/-- Helper of `pySplitWs`: tokenize, carrying the current token reversed. -/
def splitWsAux : List Char → List Char → List String
  | [], acc => if acc = [] then [] else [String.mk acc.reverse]
  | c :: rest, acc =>
    if c.isWhitespace then
      if acc = [] then splitWsAux rest []
      else String.mk acc.reverse :: splitWsAux rest []
    else splitWsAux rest (c :: acc)

/-- Python `s.split()`: split on whitespace runs, dropping empty pieces. -/
def pySplitWs (s : String) : List String :=
  splitWsAux s.toList []

/-- Python `str.join` / string interpolation with a separator. -/
def joinWith (sep : String) : List String → String
  | [] => ""
  | [x] => x
  | x :: xs => x ++ sep ++ joinWith sep xs

/-- Python `repr` of a string, as used when a list of strings is
interpolated into an f-string (escaping of quotes inside is not needed by
the messages the code builds). -/
def pyStrRepr (s : String) : String := "'" ++ s ++ "'"

/-- Python `repr` of a list of strings, e.g. `['a', 'b']`. -/
def pyListRepr (l : List String) : String :=
  "[" ++ joinWith ", " (l.map pyStrRepr) ++ "]"

/-- `str(subprocess.TimeoutExpired(cmd, timeout))`:
`Command '<cmd>' timed out after <timeout> seconds`. -/
def timeoutExpiredMessage (cmd : List String) (secs : Nat) : String :=
  "Command '" ++ pyListRepr cmd ++ "' timed out after " ++ toString secs ++ " seconds"

/-! ## JSON values

Results of task entry points and decoded payloads of the stdout marker
protocol are JSON documents. -/

/-- A JSON document. -/
inductive Json where
  | null : Json
  | bool (b : Bool) : Json
  | num (n : Int) : Json
  | str (s : String) : Json
  | arr (xs : List Json) : Json
  | obj (kvs : List (String × Json)) : Json

/-- Field lookup in a JSON object (`none` on non-objects / missing key),
modelling `dict.get` on a decoded document. -/
def Json.getField (j : Json) (k : String) : Option Json :=
  match j with
  | .obj kvs => (kvs.find? (fun kv => kv.1 == k)).map (fun kv => kv.2)
  | _ => none

/-! ## Data model (`app/models/models.py`) -/

/-- `TaskStatus` (`models.py` lines 9–14).  The code stores the
`.value` strings; the constructors stand for those values one-to-one. -/
inductive TaskStatus where
  | pending
  | running
  | success
  | failed
  | cancelled
deriving DecidableEq, Repr

/-- The `.value` string of a status. -/
def TaskStatus.value : TaskStatus → String
  | .pending => "pending"
  | .running => "running"
  | .success => "success"
  | .failed => "failed"
  | .cancelled => "cancelled"

/-- A `tasks` row.  `schedule_type` is kept as the stored string (the code
compares it against `ScheduleType.*.value`); `schedule_config` is the
decoded JSON document of the stored text (`none` models `NULL`);
`environment_path` and `requirements_path` are the columns added by
`migrate_database.py` (`none` models `NULL`/empty, which is falsy in the
code's `if task.environment_path`). -/
structure Task where
  id : Nat
  name : String
  file_path : String
  module_name : String
  schedule_type : String
  schedule_config : Option Json
  is_active : Bool
  environment_path : Option String
  requirements_path : Option String

/-- A `task_runs` row (`models.py` lines 41–53).  Timestamps are seconds
(`Int`); `duration_seconds` is `completed_at − started_at`.  The column
default of `status` is `TaskStatus.PENDING.value`, but every row the
executor creates passes a status explicitly. -/
structure TaskRun where
  task_id : Nat
  status : TaskStatus
  started_at : Option Int
  completed_at : Option Int
  duration_seconds : Option Int
  error_message : Option String
  logs_file_path : Option String
deriving DecidableEq, Repr

/-- The status the `status` column defaults to when no value is passed
(`models.py` line 46). -/
def taskRunStatusColumnDefault : TaskStatus := .pending

/-! ## External-effect oracles -/

/-- Outcome of a `subprocess.run` call that is only inspected for
`returncode`/`stderr` (the interpreter probe and the two `pip install`
calls): either the timeout expired or the process exited. -/
inductive ProbeOutcome where
  | timedOut
  | exited (returncode : Int) (stderr : String)

/-- Outcome of the isolated-mode child process: either
`subprocess.TimeoutExpired` was raised after the 3600 s limit, or the
child exited with a code, a stdout and a stderr transcript. -/
inductive ChildOutcome where
  | timedOut
  | completed (returncode : Int) (stdout stderr : String)

/-- The filesystem, as the set of existing paths (`Path.exists`). -/
structure FS where
  paths : List String

/-- `Path(p).exists()`. -/
def FS.pathExists (fs : FS) (p : String) : Bool :=
  fs.paths.contains p

/-! ## Environment resolver (`app/environment_manager.py`) -/

/-- The dict returned by `validate_environment`: `python_executable` is
`none` exactly when the key is absent from the returned dict (the code
only adds it on the fully-valid path, lines 318–320). -/
structure ValidationResult where
  valid : Bool
  python_executable : Option String
  errors : List String
  warnings : List String
deriving DecidableEq, Repr

/-- `EnvironmentManager._is_valid_venv` (lines 225–239): any of the four
indicator files exists under the path.  Paths are joined with `/`. -/
def isValidVenv (fs : FS) (envPath : String) : Bool :=
  fs.pathExists (envPath ++ "/bin/python") ||
  fs.pathExists (envPath ++ "/bin/activate") ||
  fs.pathExists (envPath ++ "/Scripts/python.exe") ||
  fs.pathExists (envPath ++ "/Scripts/activate.bat")

/-- `EnvironmentManager._get_python_executable` (lines 241–258): the Unix
binary wins over the Windows one; `.absolute()` is the identity here since
the model works with absolute paths. -/
def getPythonExecutable (fs : FS) (envPath : String) : Option String :=
  if fs.pathExists (envPath ++ "/bin/python") then some (envPath ++ "/bin/python")
  else if fs.pathExists (envPath ++ "/Scripts/python.exe") then
    some (envPath ++ "/Scripts/python.exe")
  else none

/-- `EnvironmentManager.validate_environment` (lines 260–328).
`probe` is the `python -c "import sys; print(sys.version)"` call
(timeout 10), `installOutcome` the `pip install -r` call (timeout 60)
attempted when a requirements file is supplied — its failure is only a
warning. -/
def validateEnvironment (fs : FS) (probe : String → ProbeOutcome)
    (installOutcome : ProbeOutcome) (envPath : String)
    (requirementsPath : Option String) : ValidationResult :=
  if ¬ fs.pathExists envPath then
    { valid := false, python_executable := none,
      errors := ["Environment path does not exist"], warnings := [] }
  else if ¬ isValidVenv fs envPath then
    { valid := false, python_executable := none,
      errors := ["Path is not a valid virtual environment"], warnings := [] }
  else
    match getPythonExecutable fs envPath with
    | none =>
      { valid := false, python_executable := none,
        errors := ["Could not find Python executable in environment"], warnings := [] }
    | some pythonExec =>
      match probe pythonExec with
      | .timedOut =>
        { valid := false, python_executable := none,
          errors := ["Python execution timed out"], warnings := [] }
      | .exited rc stderr =>
        if rc ≠ 0 then
          { valid := false, python_executable := none,
            errors := ["Python execution failed: " ++ stderr], warnings := [] }
        else
          match requirementsPath with
          | none =>
            { valid := true, python_executable := some pythonExec,
              errors := [], warnings := [] }
          | some reqPath =>
            if ¬ fs.pathExists reqPath then
              { valid := false, python_executable := none,
                errors := ["Requirements file does not exist"], warnings := [] }
            else
              match installOutcome with
              | .timedOut =>
                { valid := true, python_executable := some pythonExec,
                  errors := [],
                  warnings := ["Requirements installation timed out"] }
              | .exited irc istderr =>
                { valid := true, python_executable := some pythonExec,
                  errors := [],
                  warnings :=
                    if irc ≠ 0 then
                      ["Requirements installation had issues: " ++ istderr]
                    else [] }

/-! ## Execution driver, isolated mode
(`TaskExecutor._execute_task_in_environment`, `task_executor.py` 194–302) -/

/-- The literal stdout sentinels of the marker protocol. -/
def RESULT_START : String := "TASK_RESULT_START"

/-- End sentinel of the success payload. -/
def RESULT_END : String := "TASK_RESULT_END"

/-- Start sentinel of the error payload. -/
def ERROR_START : String := "TASK_ERROR_START"

/-- End sentinel of the error payload. -/
def ERROR_END : String := "TASK_ERROR_END"

/-- `json.loads`: either the decoded document or the message of the
`JSONDecodeError` it raises.  Supplied as an oracle (it is a standard
library call, not code of the repository). -/
def JsonDecoder : Type := String → Except String Json

/-- `TaskExecutor._execute_task_in_environment` (lines 194–302), as a
function of the child-process outcome.  The function catches every
exception of its own body (lines 300–302) — in particular the
`subprocess.TimeoutExpired` of the 3600-second wall-clock limit — and
turns it into a returned `{"status": "error", ...}` dict, so it *always
returns a result dict and never raises* to its caller. -/
def executeTaskInEnvironment (decode : JsonDecoder)
    (pythonExecutable scriptPath : String) (outcome : ChildOutcome) : Json :=
  match outcome with
  | .timedOut =>
    -- `except Exception as e: return {"status": "error", "message": str(e)}`
    Json.obj [("status", .str "error"),
              ("message", .str (timeoutExpiredMessage [pythonExecutable, scriptPath] 3600))]
  | .completed rc stdout _stderr =>
    if pyContains stdout RESULT_START && pyContains stdout RESULT_END then
      let startIdx := (pyFind stdout RESULT_START).getD 0 + RESULT_START.length
      let endIdx := (pyFind stdout RESULT_END).getD 0
      let resultJson := pyStrip (pySlice stdout startIdx endIdx)
      match decode resultJson with
      | .ok j => j
      | .error e =>
        Json.obj [("status", .str "error"),
                  ("message", .str ("Failed to parse result: " ++ e))]
    else if pyContains stdout ERROR_START && pyContains stdout ERROR_END then
      let startIdx := (pyFind stdout ERROR_START).getD 0 + ERROR_START.length
      let endIdx := (pyFind stdout ERROR_END).getD 0
      let errorJson := pyStrip (pySlice stdout startIdx endIdx)
      match decode errorJson with
      | .ok errorResult => errorResult
      | .error e =>
        Json.obj [("status", .str "error"),
                  ("message", .str ("Failed to parse error: " ++ e))]
    else
      -- Fallback: wrap the raw output as a success result.
      Json.obj [("status", .str "success"),
                ("message", .str "Task executed (raw output)"),
                ("output", .str stdout),
                ("return_code", .num rc)]

/-! ## Run coordinator (`TaskExecutor.execute_task`, `task_executor.py` 48–157) -/

/-- The oracle inputs of one `execute_task` invocation: the two
`datetime.utcnow()` readings, the log file path handed out by the log
sink, the temp-script path, the subprocess outcomes, the JSON decoder,
the in-process entry point behaviour and whether the notification hook
raises. -/
structure ExecEnv where
  now0 : Int
  now1 : Int
  logFilePath : String
  scriptPath : String
  probe : String → ProbeOutcome
  valInstall : ProbeOutcome
  execInstall : ProbeOutcome
  childOutcome : ChildOutcome
  decode : JsonDecoder
  moduleLoads : Bool
  inProcess : Except String Json
  hookRaises : Bool

/-- The body of the `try:` block of `execute_task` (lines 65–108): either
the result value the task produced (`.ok`) or the `str(e)` of the
exception that reaches the `except` clause (`.error`).

* `environment_path` unset → legacy in-process mode: `load_task_module`
  returning `None` raises `Could not load task module: ...`; otherwise the
  entry point either returns a result or raises.
* `environment_path` set → `validate_environment` is consulted; an invalid
  result raises `Environment validation failed: <errors repr>`; then, when
  a requirements file is configured, `pip install -r` runs with a
  300-second timeout whose `TimeoutExpired` is *not* caught locally (a
  non-zero install exit is only logged); finally
  `_execute_task_in_environment` runs — and, never raising, always
  produces an `.ok` result. -/
def tryRunTask (task : Task) (fs : FS) (env : ExecEnv) : Except String Json :=
  match task.environment_path with
  | none =>
    if env.moduleLoads then env.inProcess
    else .error ("Could not load task module: " ++ task.module_name)
  | some envPath =>
    let v := validateEnvironment fs env.probe env.valInstall envPath task.requirements_path
    if v.valid = false then
      .error ("Environment validation failed: " ++ pyListRepr v.errors)
    else
      match v.python_executable with
      | none =>
        -- `env_validation["python_executable"]` would raise `KeyError`;
        -- unreachable, since a valid result always carries the key.
        .error "KeyError: python_executable"
      | some pythonExec =>
        let isolated : Except String Json :=
          .ok (executeTaskInEnvironment env.decode pythonExec env.scriptPath env.childOutcome)
        match task.requirements_path with
        | none => isolated
        | some reqPath =>
          match env.execInstall with
          | .timedOut =>
            .error (timeoutExpiredMessage
              [pythonExec, "-m", "pip", "install", "-r", reqPath] 300)
          | .exited _ _ => isolated

/-- One observable database/notifier action of `execute_task`, in program
order: the initial `db.add`+`commit` of the new row, a later `commit` of
the same row, and the `send_task_notification` attempt (with whether the
hook raised — the exception is caught on lines 127/154). -/
inductive Event where
  | insertRun (r : TaskRun)
  | commitRun (r : TaskRun)
  | notifyAttempt (r : TaskRun) (hookRaised : Bool)
deriving DecidableEq, Repr

/-- What one `execute_task` call produces: the returned (finalized)
`TaskRun`, the record store afterwards, the result value on the success
path, and the trace of store/notifier actions. -/
structure ExecResult where
  run : TaskRun
  db : List TaskRun
  result : Option Json
  events : List Event

/-- `TaskExecutor.execute_task` (lines 48–157).  The new row is created
with `status=TaskStatus.RUNNING.value` and `started_at=utcnow()`
(lines 51–55), committed, then updated with the log file path; the `try`
body runs; on `.ok` the row is finalized `SUCCESS` with `completed_at`
and `duration_seconds`, on `.error` it is finalized `FAILED` with
`error_message = str(e)`; both paths commit and then attempt the
notification hook, whose exception is swallowed. -/
def executeTask (task : Task) (db : List TaskRun) (fs : FS) (env : ExecEnv) : ExecResult :=
  let run0 : TaskRun :=
    { task_id := task.id, status := .running, started_at := some env.now0,
      completed_at := none, duration_seconds := none,
      error_message := none, logs_file_path := none }
  let run1 : TaskRun := { run0 with logs_file_path := some env.logFilePath }
  match tryRunTask task fs env with
  | .ok result =>
    let runF : TaskRun :=
      { run1 with status := .success, completed_at := some env.now1,
                  duration_seconds := some (env.now1 - env.now0) }
    { run := runF, db := db ++ [runF], result := some result,
      events := [.insertRun run0, .commitRun run1, .commitRun runF,
                 .notifyAttempt runF env.hookRaises] }
  | .error msg =>
    let runF : TaskRun :=
      { run1 with status := .failed, completed_at := some env.now1,
                  error_message := some msg,
                  duration_seconds := some (env.now1 - env.now0) }
    { run := runF, db := db ++ [runF], result := none,
      events := [.insertRun run0, .commitRun run1, .commitRun runF,
                 .notifyAttempt runF env.hookRaises] }

/-! ## Single-flight checks
(`app/api/tasks.py` `run_task`, `app/scheduler.py` `_execute_task_job`) -/

/-- The filter of
`db.query(TaskRun).filter(TaskRun.task_id == task_id, TaskRun.status == TaskStatus.RUNNING.value)`. -/
def runningFor (taskId : Nat) (r : TaskRun) : Bool :=
  r.task_id == taskId && r.status == .running

/-- Number of RUNNING rows of a task in the store. -/
def countRunning (db : List TaskRun) (taskId : Nat) : Nat :=
  (db.filter (runningFor taskId)).length

/-- Outcome of the `POST /tasks/{id}/run` endpoint: either the response
payload's run or an `HTTPException(status_code, detail)`. -/
inductive ApiResult where
  | ok (run : TaskRun)
  | httpError (statusCode : Nat) (detail : String)
deriving Repr

/-- `run_task` in `app/api/tasks.py` (lines 226–268), the `runNow`
operation: 404 when the task id is unknown, 400 `"Task is already
running"` when a RUNNING row exists (found via `.first()`), otherwise it
calls `execute_task`.  Returns the outcome together with the record store
afterwards. -/
def runTaskNow (tasks : List Task) (db : List TaskRun) (taskId : Nat)
    (fs : FS) (env : ExecEnv) : ApiResult × List TaskRun :=
  match tasks.find? (fun t => t.id == taskId) with
  | none => (.httpError 404 "Task not found", db)
  | some task =>
    match db.find? (runningFor taskId) with
    | some _ => (.httpError 400 "Task is already running", db)
    | none =>
      let r := executeTask task db fs env
      (.ok r.run, r.db)

/-- `TaskScheduler._execute_task_job` (`scheduler.py` lines 133–164): a
scheduled firing.  Returns the record store afterwards and whether the
execution driver was invoked.  A missing task, an inactive task, or an
existing RUNNING row each return without executing. -/
def executeTaskJob (tasks : List Task) (db : List TaskRun) (taskId : Nat)
    (fs : FS) (env : ExecEnv) : List TaskRun × Bool :=
  match tasks.find? (fun t => t.id == taskId) with
  | none => (db, false)
  | some task =>
    if task.is_active = false then (db, false)
    else
      match db.find? (runningFor taskId) with
      | some _ => (db, false)
      | none => ((executeTask task db fs env).db, true)

/-! ## Trigger scheduler (`TaskScheduler`, `app/scheduler.py`) -/

/-- An APScheduler trigger, restricted to the parameters the code
passes: `IntervalTrigger(hours=1)` for hourly tasks and a `CronTrigger`
with five field values (the ones the code leaves unset default to `*`). -/
inductive Trigger where
  | interval (hours : Nat)
  | cron (minute hour day month dayOfWeek : String)
deriving DecidableEq, Repr

/-- A registered job of the APScheduler job store. -/
structure Job where
  jobId : String
  trigger : Trigger
deriving DecidableEq, Repr

/-- The scheduler's job store. -/
structure SchedulerState where
  jobs : List Job
deriving DecidableEq, Repr

/-- The job id `f"task_{task.id}"`. -/
def jobIdFor (taskId : Nat) : String := "task_" ++ toString taskId

/-- `TaskScheduler.remove_task_from_scheduler` (lines 121–131): removes
the job with the task's id when present. -/
def removeTaskFromScheduler (s : SchedulerState) (taskId : Nat) : SchedulerState :=
  ⟨s.jobs.filter (fun j => j.jobId ≠ jobIdFor taskId)⟩

/-- `scheduler.add_job(..., id=..., replace_existing=True)`. -/
def addJob (s : SchedulerState) (taskId : Nat) (t : Trigger) : SchedulerState :=
  ⟨(s.jobs.filter (fun j => j.jobId ≠ jobIdFor taskId)) ++ [⟨jobIdFor taskId, t⟩]⟩

/-- `schedule_config.get(key, default)` on the decoded
`json.loads(task.schedule_config) if task.schedule_config else {}`. -/
def cfgGet (cfg : Option Json) (k : String) (dflt : Json) : Json :=
  match cfg with
  | some j => (j.getField k).getD dflt
  | none => dflt

/-- A daily/weekly `hour`/`minute`/`day_of_week` config value as the
string handed to `CronTrigger` (numbers render as decimal). -/
def jsonToCronField : Json → String
  | .num n => toString n
  | .str s => s
  | _ => ""

/-- The custom-cron expression of a task:
`schedule_config.get('cron_expression', '0 0 * * *')`. -/
def cronExpression (task : Task) : Json :=
  cfgGet task.schedule_config "cron_expression" (.str "0 0 * * *")

/-- `TaskScheduler.add_task_to_scheduler` (lines 35–119).  Any existing
job is removed first; manual tasks register no trigger; hourly/daily/
weekly add their triggers; a custom task splits its cron expression with
`str.split()` and, when the field count is not 5, raises
`ValueError("Invalid cron expression format")`, which the surrounding
`except` turns into a `False` return with no job added.  A non-string
`cron_expression` value would equally raise (`AttributeError` on
`.split`) and return `False`.  (A 5-field expression whose values
`CronTrigger` itself rejects would also return `False`; that
library-level validation is not modelled.) -/
def addTaskToScheduler (s : SchedulerState) (task : Task) : Bool × SchedulerState :=
  let s1 := removeTaskFromScheduler s task.id
  if task.schedule_type == "manual" then (true, s1)
  else if task.schedule_type == "hourly" then
    (true, addJob s1 task.id (.interval 1))
  else if task.schedule_type == "daily" then
    let hour := jsonToCronField (cfgGet task.schedule_config "hour" (.num 0))
    let minute := jsonToCronField (cfgGet task.schedule_config "minute" (.num 0))
    (true, addJob s1 task.id (.cron minute hour "*" "*" "*"))
  else if task.schedule_type == "weekly" then
    let dayOfWeek := jsonToCronField (cfgGet task.schedule_config "day_of_week" (.str "mon"))
    let hour := jsonToCronField (cfgGet task.schedule_config "hour" (.num 0))
    let minute := jsonToCronField (cfgGet task.schedule_config "minute" (.num 0))
    (true, addJob s1 task.id (.cron minute hour "*" "*" dayOfWeek))
  else if task.schedule_type == "custom" then
    match cronExpression task with
    | .str expr =>
      let parts := pySplitWs expr
      if parts.length ≠ 5 then
        -- `raise ValueError("Invalid cron expression format")`, caught by
        -- the surrounding `except` which logs and returns `False`.
        (false, s1)
      else
        match parts with
        | [minute, hour, day, month, dayOfWeek] =>
          (true, addJob s1 task.id (.cron minute hour day month dayOfWeek))
        | _ => (false, s1)    -- unreachable: `parts.length = 5`
    | _ => (false, s1)
  else (true, s1)

/-- Whether a job for the task id is registered. -/
def hasJob (s : SchedulerState) (taskId : Nat) : Bool :=
  s.jobs.any (fun j => j.jobId == jobIdFor taskId)

/-! ## Log sink retention sweep (`LogManager.cleanup_old_logs`,
`app/log_manager.py` lines 110–131) -/

/-- A file of the log directory: its name and last-modified time
(seconds). -/
structure LogFile where
  name : String
  mtime : Int
deriving DecidableEq, Repr

/-- Whether `log_dir.glob("*.log")` yields the file. -/
def LogFile.isLog (f : LogFile) : Bool :=
  ".log".toList.isSuffixOf f.name.toList

/-- `cutoff_date = datetime.now() - timedelta(days=retention_days)`, in
seconds. -/
def retentionCutoff (now : Int) (retentionDays : Int) : Int :=
  now - retentionDays * 86400

/-- Whether one sweep deletes the file: it matches the `*.log` glob and
its mtime is strictly older than the cutoff (`file_date < cutoff_date`). -/
def sweepDeletes (now retentionDays : Int) (f : LogFile) : Bool :=
  f.isLog && decide (f.mtime < retentionCutoff now retentionDays)

/-- `LogManager.cleanup_old_logs`: the files of the log directory that
remain after one sweep. -/
def cleanupOldLogs (now retentionDays : Int) (files : List LogFile) : List LogFile :=
  files.filter (fun f => ¬ sweepDeletes now retentionDays f)

/-! ## Observation helpers -/

/-- The row an observable action concerns. -/
def eventRun : Event → TaskRun
  | .insertRun r => r
  | .commitRun r => r
  | .notifyAttempt r _ => r

/-- The status a run's row was first inserted with (the status the row is
*created* with), read off the action trace. -/
def createdStatus (events : List Event) : Option TaskStatus :=
  match events with
  | .insertRun r :: _ => some r.status
  | _ => none

/-- The string carried by a JSON string value. -/
def Json.asStr : Json → Option String
  | .str s => some s
  | _ => none

/-! ## Shared concrete fixtures for witnesses and counterexamples -/

/-- A filesystem with one valid interpreter environment. -/
def sampleFS : FS := ⟨["/envs/e1", "/envs/e1/bin/python", "/envs/e1/bin/activate"]⟩

/-- An interpreter probe that succeeds immediately. -/
def sampleProbe : String → ProbeOutcome := fun _ => .exited 0 ""

/-- The JSON text of an error payload a failing task's child prints. -/
def errPayload : String :=
  "\x7b\"status\": \"error\", \"message\": \"boom\", \"traceback\": \"tb\"\x7d"

/-- The decoded document of `errPayload`. -/
def errPayloadJson : Json :=
  Json.obj [("status", .str "error"), ("message", .str "boom"), ("traceback", .str "tb")]

/-- A child stdout transcript carrying `errPayload` between the error
sentinels. -/
def errStdout : String := "TASK_ERROR_START\n" ++ errPayload ++ "\nTASK_ERROR_END\n"

/-- A `json.loads` oracle that decodes exactly `errPayload` and reports
the usual `JSONDecodeError` message otherwise. -/
def sampleDecode : JsonDecoder := fun s =>
  if s == errPayload then .ok errPayloadJson
  else .error "Expecting value: line 1 column 1 (char 0)"

/-- An isolated-mode task (environment configured, no requirements). -/
def isoTask : Task :=
  { id := 7, name := "iso", file_path := "/tasks/iso.py", module_name := "iso",
    schedule_type := "manual", schedule_config := none, is_active := true,
    environment_path := some "/envs/e1", requirements_path := none }

/-- An in-process (legacy-mode) task. -/
def manualTask : Task :=
  { id := 3, name := "plain", file_path := "/tasks/plain.py", module_name := "plain",
    schedule_type := "manual", schedule_config := none, is_active := true,
    environment_path := none, requirements_path := none }

/-- Baseline oracle inputs for one execution. -/
def baseEnv : ExecEnv :=
  { now0 := 100, now1 := 160, logFilePath := "/logs/run7.log",
    scriptPath := "/tmp/script.py", probe := sampleProbe,
    valInstall := .exited 0 "", execInstall := .exited 0 "",
    childOutcome := .completed 0 "" "", decode := sampleDecode,
    moduleLoads := true, inProcess := .ok .null, hookRaises := false }

/-! ## Helper lemmas -/

/-- A valid `validate_environment` result always carries the
`python_executable` key (so the executor's subscript cannot raise). -/
theorem validateEnvironment_valid_executable (fs : FS) (probe : String → ProbeOutcome)
    (inst : ProbeOutcome) (envPath : String) (reqPath : Option String)
    (h : (validateEnvironment fs probe inst envPath reqPath).valid = true) :
    ∃ exe, (validateEnvironment fs probe inst envPath reqPath).python_executable = some exe := by
  unfold validateEnvironment at h ⊢
  repeat' split at h
  all_goals simp_all

/-- Removing a task's job leaves no job under its id. -/
theorem hasJob_removeTask (s : SchedulerState) (tid : Nat) :
    hasJob (removeTaskFromScheduler s tid) tid = false := by
  simp [hasJob, removeTaskFromScheduler, List.any_eq_true, List.mem_filter]

/-- `tryRunTask` does not read the notification-hook oracle. -/
theorem tryRunTask_hookRaises_irrel (task : Task) (fs : FS) (env : ExecEnv) (b : Bool) :
    tryRunTask task fs { env with hookRaises := b } = tryRunTask task fs env := by
  unfold tryRunTask
  cases task.environment_path <;> rfl

/-! ## Claim theorems -/

/-- Claim C7: for every path that exists but contains no resolvable interpreter
binary (neither `bin/python` nor `Scripts/python.exe`),
`validate_environment` returns `valid = false`, a non-empty errors list,
and no `python_executable` entry. -/
theorem validateEnvironment_no_interpreter (fs : FS) (probe : String → ProbeOutcome)
    (inst : ProbeOutcome) (envPath : String) (reqPath : Option String)
    (hex : fs.pathExists envPath = true)
    (hnoUnix : fs.pathExists (envPath ++ "/bin/python") = false)
    (hnoWin : fs.pathExists (envPath ++ "/Scripts/python.exe") = false) :
    (validateEnvironment fs probe inst envPath reqPath).valid = false ∧
    (validateEnvironment fs probe inst envPath reqPath).errors ≠ [] ∧
    (validateEnvironment fs probe inst envPath reqPath).python_executable = none := by
  unfold validateEnvironment getPythonExecutable isValidVenv
  simp [hex, hnoUnix, hnoWin]
  split <;> simp

/-- Witness for C7: a directory that exists and holds only a
`bin/activate` marker. -/
theorem validateEnvironment_no_interpreter_witness :
    (validateEnvironment ⟨["/e", "/e/bin/activate"]⟩ sampleProbe (.exited 0 "") "/e" none).valid = false ∧
    (validateEnvironment ⟨["/e", "/e/bin/activate"]⟩ sampleProbe (.exited 0 "") "/e" none).errors ≠ [] ∧
    (validateEnvironment ⟨["/e", "/e/bin/activate"]⟩ sampleProbe (.exited 0 "") "/e" none).python_executable = none :=
  validateEnvironment_no_interpreter ⟨["/e", "/e/bin/activate"]⟩ sampleProbe (.exited 0 "")
    "/e" none (by decide) (by decide) (by decide)

/-- Claim C8: one retention sweep deletes exactly the log files strictly older
than `now − retention_days`; a file modified `retention_days − 1` days ago
survives and one modified `retention_days + 1` days ago is removed. -/
theorem cleanupOldLogs_retention (files : List LogFile) (now rd : Int)
    (hlog : ∀ f ∈ files, f.isLog = true) :
    cleanupOldLogs now rd files =
      files.filter (fun f => decide (¬ f.mtime < retentionCutoff now rd)) ∧
    (∀ f ∈ files, f.mtime = now - (rd - 1) * 86400 → f ∈ cleanupOldLogs now rd files) ∧
    (∀ f ∈ files, f.mtime = now - (rd + 1) * 86400 → f ∉ cleanupOldLogs now rd files) := by
  have hset : cleanupOldLogs now rd files =
      files.filter (fun f => decide (¬ f.mtime < retentionCutoff now rd)) := by
    unfold cleanupOldLogs
    refine List.filter_congr ?_
    intro f hf
    simp [sweepDeletes, hlog f hf]
  refine ⟨hset, ?_, ?_⟩
  · intro f hf hm
    rw [hset, List.mem_filter]
    refine ⟨hf, ?_⟩
    simp only [retentionCutoff, hm, decide_eq_true_eq]
    omega
  · intro f hf hm
    rw [hset, List.mem_filter]
    rintro ⟨-, hkeep⟩
    simp only [retentionCutoff, hm, decide_eq_true_eq] at hkeep
    omega

/-- Witness for C8: two log files at the two boundary ages with
`retention_days = 7`; the younger is kept, the older removed. -/
theorem cleanupOldLogs_retention_witness :
    cleanupOldLogs 1000000 7 [⟨"a.log", 1000000 - 6 * 86400⟩, ⟨"b.log", 1000000 - 8 * 86400⟩] =
      [⟨"a.log", 1000000 - 6 * 86400⟩, ⟨"b.log", 1000000 - 8 * 86400⟩].filter
        (fun f => decide (¬ f.mtime < retentionCutoff 1000000 7)) ∧
    (∀ f ∈ [(⟨"a.log", 1000000 - 6 * 86400⟩ : LogFile), ⟨"b.log", 1000000 - 8 * 86400⟩],
        f.mtime = 1000000 - (7 - 1) * 86400 →
        f ∈ cleanupOldLogs 1000000 7 [⟨"a.log", 1000000 - 6 * 86400⟩, ⟨"b.log", 1000000 - 8 * 86400⟩]) ∧
    (∀ f ∈ [(⟨"a.log", 1000000 - 6 * 86400⟩ : LogFile), ⟨"b.log", 1000000 - 8 * 86400⟩],
        f.mtime = 1000000 - (7 + 1) * 86400 →
        f ∉ cleanupOldLogs 1000000 7 [⟨"a.log", 1000000 - 6 * 86400⟩, ⟨"b.log", 1000000 - 8 * 86400⟩]) :=
  cleanupOldLogs_retention [⟨"a.log", 1000000 - 6 * 86400⟩, ⟨"b.log", 1000000 - 8 * 86400⟩]
    1000000 7 (by decide)

/-- Claim C6: registering a custom-cron schedule whose expression does not split
into exactly 5 whitespace-separated fields fails (`add_task_to_scheduler`
returns `False`) and leaves no job registered for the task. -/
theorem addTaskToScheduler_badCron (s : SchedulerState) (task : Task) (expr : String)
    (hty : task.schedule_type = "custom")
    (hexpr : cronExpression task = .str expr)
    (hcount : (pySplitWs expr).length ≠ 5) :
    addTaskToScheduler s task = (false, removeTaskFromScheduler s task.id) ∧
    hasJob (addTaskToScheduler s task).2 task.id = false := by
  have h1 : addTaskToScheduler s task = (false, removeTaskFromScheduler s task.id) := by
    unfold addTaskToScheduler
    rw [hty, hexpr]
    simp [hcount]
  exact ⟨h1, by rw [h1]; exact hasJob_removeTask s task.id⟩

/-- Witness for C6: a 4-field expression on a scheduler that currently
holds a job for the task. -/
theorem addTaskToScheduler_badCron_witness :
    addTaskToScheduler ⟨[⟨jobIdFor 5, .interval 1⟩]⟩
        { id := 5, name := "c", file_path := "/t/c.py", module_name := "c",
          schedule_type := "custom",
          schedule_config := some (.obj [("cron_expression", .str "1 2 3 4")]),
          is_active := true, environment_path := none, requirements_path := none } =
      (false, removeTaskFromScheduler ⟨[⟨jobIdFor 5, .interval 1⟩]⟩ 5) ∧
    hasJob (addTaskToScheduler ⟨[⟨jobIdFor 5, .interval 1⟩]⟩
        { id := 5, name := "c", file_path := "/t/c.py", module_name := "c",
          schedule_type := "custom",
          schedule_config := some (.obj [("cron_expression", .str "1 2 3 4")]),
          is_active := true, environment_path := none, requirements_path := none }).2 5 = false :=
  addTaskToScheduler_badCron _ _ "1 2 3 4" rfl rfl (by decide)

/-- Claim C10: a scheduled firing of an inactive task returns without touching
the record store and without invoking the execution driver. -/
theorem executeTaskJob_inactive (tasks : List Task) (db : List TaskRun) (taskId : Nat)
    (fs : FS) (env : ExecEnv) (t : Task)
    (ht : tasks.find? (fun t' => t'.id == taskId) = some t)
    (hia : t.is_active = false) :
    executeTaskJob tasks db taskId fs env = (db, false) := by
  unfold executeTaskJob
  rw [ht]
  simp [hia]

/-- Witness for C10: a firing of a concrete inactive task. -/
theorem executeTaskJob_inactive_witness :
    executeTaskJob [{ manualTask with is_active := false }] [] manualTask.id sampleFS baseEnv
      = ([], false) :=
  executeTaskJob_inactive _ _ _ _ _ { manualTask with is_active := false } rfl rfl

/-- Claim C2: when a RUNNING TaskRun already exists for a task, `runNow`
(`POST /tasks/{id}/run`) fails with the "already running" error, leaves
the record store unchanged (no additional row), and hence exactly one
RUNNING row exists afterward when exactly one existed before. -/
theorem runTaskNow_alreadyRunning (tasks : List Task) (db : List TaskRun) (taskId : Nat)
    (fs : FS) (env : ExecEnv) (t : Task)
    (ht : tasks.find? (fun t' => t'.id == taskId) = some t)
    (hr : ∃ r ∈ db, runningFor taskId r = true) :
    (runTaskNow tasks db taskId fs env).1 = .httpError 400 "Task is already running" ∧
    (runTaskNow tasks db taskId fs env).2 = db ∧
    (countRunning db taskId = 1 →
      countRunning (runTaskNow tasks db taskId fs env).2 taskId = 1) := by
  have hsome : (db.find? (runningFor taskId)).isSome := by
    rw [List.find?_isSome]
    exact hr
  obtain ⟨x, hx⟩ := Option.isSome_iff_exists.mp hsome
  unfold runTaskNow
  rw [ht, hx]
  exact ⟨rfl, rfl, fun h => h⟩

/-- A RUNNING row of task 3, for the C2 witness. -/
def runningRow : TaskRun :=
  { task_id := 3, status := .running, started_at := some 50, completed_at := none,
    duration_seconds := none, error_message := none, logs_file_path := none }

/-- Witness for C2: a second `runNow` against a store already holding a
RUNNING row. -/
theorem runTaskNow_alreadyRunning_witness :
    (runTaskNow [manualTask] [runningRow] 3 sampleFS baseEnv).1 =
      .httpError 400 "Task is already running" ∧
    (runTaskNow [manualTask] [runningRow] 3 sampleFS baseEnv).2 = [runningRow] ∧
    (countRunning [runningRow] 3 = 1 →
      countRunning (runTaskNow [manualTask] [runningRow] 3 sampleFS baseEnv).2 3 = 1) :=
  runTaskNow_alreadyRunning [manualTask] [runningRow] 3 sampleFS baseEnv manualTask rfl
    ⟨runningRow, by simp, rfl⟩

/-- Claim C9: on both the SUCCESS and the FAILED path the notification hook is
attempted strictly after the finalizing commit of the run, and whether
the hook raises changes neither the finalized run nor the record store. -/
theorem executeTask_notifyAfterFinalize (task : Task) (db : List TaskRun) (fs : FS)
    (env : ExecEnv) (b : Bool) :
    (executeTask task db fs { env with hookRaises := b }).run =
      (executeTask task db fs env).run ∧
    (executeTask task db fs { env with hookRaises := b }).db =
      (executeTask task db fs env).db ∧
    ((executeTask task db fs env).run.status = .success ∨
      (executeTask task db fs env).run.status = .failed) ∧
    (∃ r0 r1, (executeTask task db fs env).events =
      [.insertRun r0, .commitRun r1, .commitRun (executeTask task db fs env).run,
       .notifyAttempt (executeTask task db fs env).run env.hookRaises]) := by
  unfold executeTask
  rw [tryRunTask_hookRaises_irrel]
  cases tryRunTask task fs env <;>
    exact ⟨rfl, rfl, by simp, ⟨_, _, rfl⟩⟩

/-- Claim C5, amended: every row `execute_task` creates is inserted directly
with status RUNNING and a start timestamp — the PENDING column default is
never the stored status; no action of a run ever carries PENDING. -/
theorem executeTask_createsRunning (task : Task) (db : List TaskRun) (fs : FS)
    (env : ExecEnv) :
    createdStatus (executeTask task db fs env).events = some .running ∧
    (∃ r0, (executeTask task db fs env).events.head? = some (.insertRun r0) ∧
      r0.status = .running ∧ r0.started_at = some env.now0 ∧ r0.completed_at = none) ∧
    ((executeTask task db fs env).events.all
      (fun e => (eventRun e).status != .pending)) = true := by
  unfold executeTask
  cases tryRunTask task fs env <;> simp [createdStatus, eventRun]

/-- Counterexample for C5 as stated: at a concrete execution the row is
created with status RUNNING, not PENDING. -/
theorem executeTask_createsRunning_counterexample :
    createdStatus (executeTask manualTask [] sampleFS baseEnv).events = some .running ∧
    ¬ createdStatus (executeTask manualTask [] sampleFS baseEnv).events =
        some taskRunStatusColumnDefault := by
  exact ⟨rfl, by decide⟩

/-- Claim C4, amended: when the isolated child exits (with any code, in
particular non-zero) and its stdout carries neither sentinel pair, the
driver wraps the raw output as a success result carrying the exit code,
and `execute_task` finalizes the run as SUCCESS with no error message —
the execution is reported as a success, not as a failure. -/
theorem executeTask_rawOutput_success (task : Task) (db : List TaskRun) (fs : FS)
    (env : ExecEnv) (p : String) (rc : Int) (out errOut : String)
    (hp : task.environment_path = some p)
    (hvalid : (validateEnvironment fs env.probe env.valInstall p
      task.requirements_path).valid = true)
    (hinst : task.requirements_path = none ∨ env.execInstall ≠ ProbeOutcome.timedOut)
    (hchild : env.childOutcome = .completed rc out errOut)
    (hnoRes : (pyContains out RESULT_START && pyContains out RESULT_END) = false)
    (hnoErr : (pyContains out ERROR_START && pyContains out ERROR_END) = false) :
    (executeTask task db fs env).run.status = .success ∧
    (executeTask task db fs env).run.error_message = none ∧
    (executeTask task db fs env).result =
      some (.obj [("status", .str "success"),
                  ("message", .str "Task executed (raw output)"),
                  ("output", .str out), ("return_code", .num rc)]) := by
  obtain ⟨exe, hexe⟩ := validateEnvironment_valid_executable fs env.probe env.valInstall p
    task.requirements_path hvalid
  have hdriver : executeTaskInEnvironment env.decode exe env.scriptPath env.childOutcome =
      .obj [("status", .str "success"), ("message", .str "Task executed (raw output)"),
            ("output", .str out), ("return_code", .num rc)] := by
    rw [hchild]
    unfold executeTaskInEnvironment
    simp [hnoRes, hnoErr]
  have htry : tryRunTask task fs env =
      .ok (executeTaskInEnvironment env.decode exe env.scriptPath env.childOutcome) := by
    unfold tryRunTask
    rw [hp]
    rcases hre : task.requirements_path with _ | rp
    · rw [hre] at hvalid hexe
      simp [hvalid, hexe]
    · rw [hre] at hvalid hexe
      rcases hinst with hnone | hinstalled
      · rw [hre] at hnone
        exact absurd hnone (by simp)
      · rcases hex : env.execInstall with _ | ⟨irc, istderr⟩
        · exact absurd hex hinstalled
        · simp [hvalid, hexe, hex]
  unfold executeTask
  rw [htry, hdriver]
  exact ⟨rfl, rfl, rfl⟩

/-- Oracle inputs where the child exits 1 with marker-free output. -/
def envC4 : ExecEnv := { baseEnv with childOutcome := .completed 1 "oops" "" }

/-- Counterexample for C4 as stated: a child that exits 1 with no
sentinels in its output yields a SUCCESS run (not FAILED). -/
theorem executeTask_rawOutput_counterexample :
    (executeTask isoTask [] sampleFS envC4).run.status = .success ∧
    TaskStatus.success ≠ TaskStatus.failed ∧
    envC4.childOutcome = .completed 1 "oops" "" ∧
    pyContains "oops" RESULT_START = false ∧
    pyContains "oops" ERROR_START = false := by
  exact ⟨rfl, by decide, rfl, by decide, by decide⟩

/-- Witness for C4's amended theorem at the concrete scenario. -/
theorem executeTask_rawOutput_success_witness :
    (executeTask isoTask [] sampleFS envC4).run.status = .success ∧
    (executeTask isoTask [] sampleFS envC4).run.error_message = none ∧
    (executeTask isoTask [] sampleFS envC4).result =
      some (.obj [("status", .str "success"),
                  ("message", .str "Task executed (raw output)"),
                  ("output", .str "oops"), ("return_code", .num 1)]) :=
  executeTask_rawOutput_success isoTask [] sampleFS envC4 "/envs/e1" 1 "oops" ""
    rfl (by decide) (Or.inl rfl) rfl (by decide) (by decide)

/-- Oracle inputs where the child exceeds the 3600 s wall-clock limit. -/
def envC3 : ExecEnv := { baseEnv with childOutcome := .timedOut }

/-- Claim C3: at the failing input (child exceeds the wall-clock timeout) the
run is finalized SUCCESS with no error message; the timeout text ends up
only in the driver's returned result dict.  The claim (and the spec's
stated intent) require a FAILED run with a timeout-classified message. -/
theorem executeTask_timeout_bug :
    (executeTask isoTask [] sampleFS envC3).run.status = .success ∧
    (executeTask isoTask [] sampleFS envC3).run.error_message = none ∧
    (executeTask isoTask [] sampleFS envC3).result =
      some (.obj [("status", .str "error"),
        ("message", .str (timeoutExpiredMessage
          ["/envs/e1/bin/python", "/tmp/script.py"] 3600))]) ∧
    pyContains (timeoutExpiredMessage ["/envs/e1/bin/python", "/tmp/script.py"] 3600)
      "timed out" = true := by
  exact ⟨rfl, rfl, rfl, by decide⟩

/-- Oracle inputs where the child prints the error payload. -/
def envC1 : ExecEnv := { baseEnv with childOutcome := .completed 0 errStdout "" }

set_option maxRecDepth 10000 in
/-- Claim C1: at the failing input (the task's entry point raises, so the child
prints a JSON error payload between the error sentinels) the run is
finalized SUCCESS with `error_message = None`; the payload — traceback
included — survives only as the driver's returned result.  The claim
(and the spec's stated intent) require a FAILED run with a non-empty
error message and a captured traceback. -/
theorem executeTask_errorPayload_bug :
    (executeTask isoTask [] sampleFS envC1).run.status = .success ∧
    (executeTask isoTask [] sampleFS envC1).run.error_message = none ∧
    (executeTask isoTask [] sampleFS envC1).result = some errPayloadJson ∧
    pyContains errStdout ERROR_START = true ∧
    pyContains errStdout ERROR_END = true ∧
    ((errPayloadJson.getField "traceback").bind Json.asStr) = some "tb" := by
  exact ⟨rfl, rfl, rfl, by decide, by decide, rfl⟩

end CronPilot
